import Mathlib

/-!
Shallow embedding of `src/ifc-graph.py` (ifc2neo4j): an IFC entity model is
transformed into a property graph (`Node`, `Relationship`, `Graph`) and then
serialized into Neo4j write statements.

Modelling conventions:
* Python dicts are insertion-ordered association lists (`dictInsert` updates
  in place or appends, `dictGet` returns the first match).
* Python sets are lists with membership-checked insertion that keeps the
  existing element on a hit (first-write-wins, as `set.add` does).
* Python's `hash` on the primary-key values is modelled injectively by the
  value itself: `Node.__hash__` returns `hash(self.__primarykey__)`, so two
  hashes agree exactly when the keys agree in this model.
* `uuid4()` is modelled as a fresh-string generator threaded explicitly: the
  state is a counter, and each draw yields a string distinct from every other
  draw (`uuidString` is injective).  Every function that may draw takes and
  returns the counter.
* Scalar attribute values (`get_argument`) are numbers, strings or `None`,
  modelled by `PVal`.
-/

namespace IfcGraph

/-- A Python scalar value stored in a node's property dict:
`None`, a number, or a string. -/
inductive PVal : Type where
  | null : PVal
  | num (n : Int) : PVal
  | str (s : String) : PVal
deriving DecidableEq, Repr

mutual

/-- An IFC entity as exposed by ifcopenshell: numeric id (`id()`, 0 meaning
"no stable identity"), primary type tag (`is_a()`), the supertype tags that
make `is_a(tag)` true, the indexed attributes, and the inverse-attribute
table (`get_inverse_attribute_names` / `get_inverse`, the latter giving the
ids of the referencing entities, resolved through `by_id`). -/
inductive IfcEntity : Type where
  | mk (eid : Nat) (typeTag : String) (superTags : List String)
       (attrs : List IfcAttr) (inv : List (String × List Nat))

/-- One indexed attribute of an entity: `get_argument_name(i)`,
`get_argument_type(i)` (a string such as "ENTITY INSTANCE"), and the
attribute value `ifc_entity[i]`. -/
inductive IfcAttr : Type where
  | mk (name : String) (argType : String) (val : AttrVal)

/-- The value of an attribute slot: unset (`None`), a scalar, a single
entity instance, or an aggregate of entity instances. -/
inductive AttrVal : Type where
  | empty : AttrVal
  | scalar (v : PVal) : AttrVal
  | entity (e : IfcEntity) : AttrVal
  | entityList (es : List IfcEntity) : AttrVal

end

def IfcEntity.eid : IfcEntity → Nat
  | .mk i _ _ _ _ => i

def IfcEntity.typeTag : IfcEntity → String
  | .mk _ t _ _ _ => t

def IfcEntity.superTags : IfcEntity → List String
  | .mk _ _ s _ _ => s

def IfcEntity.attrs : IfcEntity → List IfcAttr
  | .mk _ _ _ a _ => a

def IfcEntity.inv : IfcEntity → List (String × List Nat)
  | .mk _ _ _ _ v => v

/-- Model of `ifc_entity.is_a(tag)`: membership of `tag` in the entity's type
ancestry (its own tag or any supertype tag). -/
def IfcEntity.isA (e : IfcEntity) (tag : String) : Bool :=
  tag == e.typeTag || e.superTags.contains tag

def IfcAttr.name : IfcAttr → String
  | .mk n _ _ => n

def IfcAttr.argType : IfcAttr → String
  | .mk _ t _ => t

def IfcAttr.val : IfcAttr → AttrVal
  | .mk _ _ v => v

/-- Python truthiness of a scalar: `None`, `0` and `""` are falsy. -/
def PVal.truthy : PVal → Bool
  | .null => false
  | .num n => n != 0
  | .str s => s != ""

/-- Python truthiness of the attribute value `ifc_entity[i]`:
`None` is falsy, an entity is truthy, a tuple is truthy iff non-empty. -/
def AttrVal.truthy : AttrVal → Bool
  | .empty => false
  | .scalar v => v.truthy
  | .entity _ => true
  | .entityList es => !es.isEmpty

/-- Model of `get_argument(i)`: the scalar view of an attribute value.  Only
scalar-kind attributes reach this accessor in the builder (entity-valued
kinds are filtered out first); the non-scalar cases yield `None`. -/
def AttrVal.getArgument : AttrVal → PVal
  | .scalar v => v
  | _ => PVal.null

/-- The IFC file (source model): the global type index
(`wrapped_data.types_with_super()`), entity resolution (`by_id`), and the
full list of entity ids (`wrapped_data.entity_names()`). -/
structure IfcFile : Type where
  typesWithSuper : List String
  byId : Nat → IfcEntity
  entityNames : List Nat

/-! ### Property dicts (Python `dict` as an ordered association list) -/

/-- Assignment `d[k] = v` on a Python dict: update the existing entry in place, else
append at the end. -/
def dictInsert (ps : List (String × PVal)) (k : String) (v : PVal) :
    List (String × PVal) :=
  if ps.any (fun p => p.1 == k) then
    ps.map (fun p => if p.1 == k then (k, v) else p)
  else
    ps ++ [(k, v)]

/-- Lookup `d[k]` on a Python dict: the first (unique) entry for the key. -/
def dictGet (ps : List (String × PVal)) (k : String) : Option PVal :=
  (ps.find? (fun p => p.1 == k)).map (fun p => p.2)

/-! ### Node -/

/-- The `Node` class: a dict of properties plus a label set, with
`__primarylabel__` / `__primarykey__` captured by the builder
(class default `None` before they are assigned). -/
structure Node : Type where
  props : List (String × PVal)
  labels : List String
  primaryLabel : Option PVal
  primaryKey : Option PVal
deriving DecidableEq, Repr

/-- Model of `Node.__hash__`, that is `hash(self.__primarykey__)`, with Python's hash
modelled injectively by the key itself. -/
def nodeHash (n : Node) : Option PVal :=
  n.primaryKey

/-- Model of `Node.__eq__` against another `Node`: comparison of the two hashes. -/
def nodeEq (a b : Node) : Bool :=
  decide (nodeHash a = nodeHash b)

/-- Model of `add_label`: set-insert into the label set (kept as an insertion-ordered
duplicate-free list). -/
def addLabel (ls : List String) (l : String) : List String :=
  if ls.contains l then ls else ls ++ [l]

/-! ### Relationship and Graph -/

/-- The `Relationship(start_node, rel_type, end_node)` class. -/
structure Relationship : Type where
  start_node : Node
  rel_type : String
  end_node : Node
deriving DecidableEq, Repr

/-- Model of `Relationship.__hash__`, that is
`hash((start_node, rel_type, end_node))`,
modelled injectively by the triple of the constituents' hashes. -/
def relHash (r : Relationship) : Option PVal × String × Option PVal :=
  (nodeHash r.start_node, r.rel_type, nodeHash r.end_node)

/-- Model of `Relationship.__eq__` against another `Relationship`: comparison of the
two hashes. -/
def relEq (a b : Relationship) : Bool :=
  decide (relHash a = relHash b)

/-- The accumulating graph: a set of nodes and a set of relationships,
modelled as duplicate-free lists under `nodeEq` / `relEq`. -/
structure Graph : Type where
  nodes : List Node
  relationships : List Relationship
deriving Repr

/-- Python `set.add` on the node set: keep the existing element when an
equal one (same hash) is already present. -/
def setAddNode (ns : List Node) (n : Node) : List Node :=
  if ns.any (fun m => nodeEq m n) then ns else ns ++ [n]

/-- Python `set.add` on the relationship set. -/
def setAddRel (rs : List Relationship) (r : Relationship) :
    List Relationship :=
  if rs.any (fun s => relEq s r) then rs else rs ++ [r]

/-- The node branch of `Graph.merge`. -/
def Graph.mergeNode (g : Graph) (n : Node) : Graph :=
  { g with nodes := setAddNode g.nodes n }

/-- The relationship branch of `Graph.merge`. -/
def Graph.mergeRel (g : Graph) (r : Relationship) : Graph :=
  { g with relationships := setAddRel g.relationships r }

/-- A value handed to `Graph.merge`: a `Node`, a `Relationship`, or any
other Python object (opaque payload). -/
inductive GEntity : Type where
  | node (n : Node) : GEntity
  | rel (r : Relationship) : GEntity
  | other (payload : String) : GEntity

/-- Model of `Graph.merge`: type-dispatch to node-insert or relationship-insert;
any other input raises `TypeError("Can only merge nodes and relationships")`.
The raise is modelled by `Except.error`; since merging returns the new graph
explicitly, a call that errors leaves the caller's graph untouched. -/
def Graph.merge (g : Graph) (e : GEntity) : Except String Graph :=
  match e with
  | .node n => .ok (g.mergeNode n)
  | .rel r => .ok (g.mergeRel r)
  | .other _ => .error "Can only merge nodes and relationships"

/-! ### The builder: `create_pure_node_from_ifc_entity` -/

/-- The fresh synthetic identity drawn at counter state `u`
(`str(uuid4())` modelled as an injective fresh-string generator). -/
def uuidString (u : Nat) : String :=
  String.mk ('u' :: 'u' :: 'i' :: 'd' :: '-' :: List.replicate u 'x')

/-- The attribute kinds skipped by the property loop:
`attributes_type = ["ENTITY INSTANCE", "AGGREGATE OF ENTITY INSTANCE",
"DERIVED"]`. -/
def attributes_type : List String :=
  ["ENTITY INSTANCE", "AGGREGATE OF ENTITY INSTANCE", "DERIVED"]

/-- One step of the builder's property loop: attributes whose kind is in
`attributes_type` are skipped, every other attribute is stored as
`node[name] = get_argument(i)`. -/
def propStep (ps : List (String × PVal)) (a : IfcAttr) :
    List (String × PVal) :=
  if attributes_type.contains a.argType then ps
  else dictInsert ps a.name a.val.getArgument

/-- Model of `create_pure_node_from_ifc_entity(ifc_entity, ifc_file,
hierarchy)`:
set `node["id"]` to `str(id())` or a fresh uuid, set `node["name"]` to the
primary type tag, collect the hierarchy labels, copy every non-entity,
non-derived attribute into the dict, then capture `__primarylabel__ :=
node["name"]` and `__primarykey__ := node["id"]`.  The uuid counter is
threaded through explicitly: the result pairs the node with the new
counter. -/
def create_pure_node_from_ifc_entity (e : IfcEntity) (f : IfcFile)
    (hierarchy : Bool) (u : Nat) : Node × Nat :=
  let idPair := if e.eid != 0 then (toString e.eid, u)
                else (uuidString u, u + 1)
  let props0 := dictInsert (dictInsert [] "id" (PVal.str idPair.1))
                  "name" (PVal.str e.typeTag)
  let labels :=
    if hierarchy then
      f.typesWithSuper.foldl
        (fun ls label => if e.isA label then addLabel ls label else ls) []
    else
      addLabel [] e.typeTag
  let props := e.attrs.foldl propStep props0
  ({ props := props
     labels := labels
     primaryLabel := dictGet props "name"
     primaryKey := dictGet props "id" }, idPair.2)

/-! ### The extractor: `create_graph_from_ifc_entity_all` -/

/-- One step of the aggregate loop (`for sub_entity in ifc_entity[i]`):
build the element's node and merge only the relationship
`(node, attribute-name, element-node)`. -/
def aggStep (f : IfcFile) (node : Node) (aname : String)
    (acc : Graph × Nat) (sub : IfcEntity) : Graph × Nat :=
  let np := create_pure_node_from_ifc_entity sub f true acc.2
  (acc.1.mergeRel ⟨node, aname, np.1⟩, np.2)

/-- One step of the forward-attribute loop of
`create_graph_from_ifc_entity_all`, acting on the accumulator
(graph, uuid counter) for one attribute `a` of `e` (whose own node is
`node`): skip falsy values; on "ENTITY INSTANCE", apply the OwnerHistory
skip rule, otherwise build the referenced entity's node and merge only the
relationship; on "AGGREGATE OF ENTITY INSTANCE", do the same for every
element of the aggregate. -/
def extractAttrStep (f : IfcFile) (node : Node) (e : IfcEntity)
    (acc : Graph × Nat) (a : IfcAttr) : Graph × Nat :=
  if a.val.truthy then
    if a.argType == "ENTITY INSTANCE" then
      match a.val with
      | .entity sub =>
        if (["IfcOwnerHistory"].contains sub.typeTag)
            && e.typeTag != "IfcProject" then acc
        else
          let np := create_pure_node_from_ifc_entity sub f true acc.2
          (acc.1.mergeRel ⟨node, a.name, np.1⟩, np.2)
      | _ => acc
    else if a.argType == "AGGREGATE OF ENTITY INSTANCE" then
      match a.val with
      | .entityList subs => subs.foldl (aggStep f node a.name) acc
      | _ => acc
    else acc
  else acc

/-- One step of the loop over one inverse relation's referencing entities:
resolve the referencing entity through `by_id`, build its node, and merge
only the relationship `(node, relName, resolved-node)`. -/
def invStep (f : IfcFile) (node : Node) (relName : String)
    (acc : Graph × Nat) (wid : Nat) : Graph × Nat :=
  let np := create_pure_node_from_ifc_entity (f.byId wid) f true acc.2
  (acc.1.mergeRel ⟨node, relName, np.1⟩, np.2)

/-- Model of `get_inverse(rel_name)`: the ids of the entities referencing the
current one through the given inverse relation. -/
def getInverse (e : IfcEntity) (relName : String) : List Nat :=
  ((e.inv.find? (fun p => p.1 == relName)).map (fun p => p.2)).getD []

/-- One step of the inverse-relation loop: for the inverse-attribute name
`relName`, if `get_inverse(relName)` is non-empty, process each referencing
entity id with `invStep`. -/
def extractInvStep (f : IfcFile) (node : Node) (e : IfcEntity)
    (acc : Graph × Nat) (relName : String) : Graph × Nat :=
  if (getInverse e relName).isEmpty then acc
  else (getInverse e relName).foldl (invStep f node relName) acc

/-- Model of `create_graph_from_ifc_entity_all(graph, ifc_entity,
ifc_file)`:
build the entity's own node and merge it, then run the forward-attribute
loop, then the inverse-relation loop.  The graph and the uuid counter are
threaded explicitly. -/
def create_graph_from_ifc_entity_all (graph : Graph) (e : IfcEntity)
    (f : IfcFile) (u : Nat) : Graph × Nat :=
  let np := create_pure_node_from_ifc_entity e f true u
  let graph1 := graph.mergeNode np.1
  let acc2 := e.attrs.foldl (extractAttrStep f np.1 e) (graph1, np.2)
  (e.inv.map (fun p => p.1)).foldl (extractInvStep f np.1 e) acc2

/-! ### The walker: `create_full_graph` -/

/-- Model of `create_full_graph(graph, ifc_file)`: resolve every id in
`entity_names()` in order and extract it into the shared graph. -/
def create_full_graph (graph : Graph) (f : IfcFile) (u : Nat) :
    Graph × Nat :=
  f.entityNames.foldl
    (fun acc eid => create_graph_from_ifc_entity_all acc.1 (f.byId eid) f acc.2)
    (graph, u)

/-! ### The emitter: `write_graph_to_neo4j` -/

/-- Lookup `node[k]` on a built node's dict, totalized with `None`
(the keys "id" and "name" are always present on built nodes). -/
def nGet (n : Node) (k : String) : PVal :=
  (dictGet n.props k).getD PVal.null

/-- One emitted Neo4j statement.
`createNode label props` stands for `CREATE (n: <label> <props-dict>)`
(the node branch, label `node['name']`, the whole property dict inlined);
`createRel` stands for the `MATCH (parent: <startLabel> (id: <startId>)),
(child: <endLabel> (id: <endId>)) CREATE (parent)-[:<relType>]->(child)`
statement of the relationship branch. -/
inductive Stmt : Type where
  | createNode (label : PVal) (props : List (String × PVal)) : Stmt
  | createRel (startLabel : PVal) (startId : PVal)
              (endLabel : PVal) (endId : PVal) (relType : String) : Stmt
deriving DecidableEq, Repr

/-- Model of `write_graph_to_neo4j(graph, driver)`: one `CREATE` statement per node,
in node-set order, followed by one `MATCH ... CREATE` statement per
relationship, in relationship-set order. -/
def write_graph_to_neo4j (g : Graph) : List Stmt :=
  g.nodes.map (fun n => Stmt.createNode (nGet n "name") n.props)
    ++ g.relationships.map
        (fun r => Stmt.createRel (nGet r.start_node "name")
                    (nGet r.start_node "id")
                    (nGet r.end_node "name") (nGet r.end_node "id")
                    r.rel_type)

/-- Whether a statement is a node-creation statement. -/
def Stmt.isCreateNode : Stmt → Bool
  | .createNode _ _ => true
  | _ => false

/-- Whether a statement is a relationship statement. -/
def Stmt.isCreateRel : Stmt → Bool
  | .createRel _ _ _ _ _ => true
  | _ => false

/-- Whether a node-creation statement carries the identity `v`: its inlined
property dict binds "id" to `v`. -/
def stmtCarries (s : Stmt) (v : PVal) : Bool :=
  match s with
  | .createNode _ ps => decide (dictGet ps "id" = some v)
  | _ => false

/-- The identities a relationship statement matches on (empty for a
node-creation statement). -/
def stmtMatchedIds : Stmt → List PVal
  | .createNode _ _ => []
  | .createRel _ sid _ eid _ => [sid, eid]

/-! ### Helper lemmas -/

theorem mem_addLabel (ls : List String) (l T : String) :
    T ∈ addLabel ls l ↔ T ∈ ls ∨ T = l := by
  unfold addLabel
  by_cases h : ls.contains l = true
  · rw [if_pos h]
    have hl : l ∈ ls := by simpa using h
    constructor
    · exact fun ht => Or.inl ht
    · rintro (ht | rfl)
      · exact ht
      · exact hl
  · rw [if_neg h]
    simp [List.mem_append]

theorem mem_labelFold (p : String → Bool) (l : List String)
    (acc : List String) (T : String) :
    T ∈ l.foldl (fun ls lab => if p lab then addLabel ls lab else ls) acc ↔
      T ∈ acc ∨ (T ∈ l ∧ p T = true) := by
  induction l generalizing acc with
  | nil => simp
  | cons x xs ih =>
    rw [List.foldl_cons, ih]
    by_cases hx : p x = true
    · rw [if_pos hx, mem_addLabel]
      constructor
      · rintro ((h | rfl) | ⟨h1, h2⟩)
        · exact Or.inl h
        · exact Or.inr ⟨List.mem_cons_self _ _, hx⟩
        · exact Or.inr ⟨List.mem_cons_of_mem _ h1, h2⟩
      · rintro (h | ⟨h1, h2⟩)
        · exact Or.inl (Or.inl h)
        · rcases List.mem_cons.mp h1 with rfl | h1x
          · exact Or.inl (Or.inr rfl)
          · exact Or.inr ⟨h1x, h2⟩
    · rw [if_neg hx]
      constructor
      · rintro (h | ⟨h1, h2⟩)
        · exact Or.inl h
        · exact Or.inr ⟨List.mem_cons_of_mem _ h1, h2⟩
      · rintro (h | ⟨h1, h2⟩)
        · exact Or.inl h
        · rcases List.mem_cons.mp h1 with rfl | h1x
          · exact absurd h2 hx
          · exact Or.inr ⟨h1x, h2⟩

theorem find?_update (ps : List (String × PVal)) (k : String) (v : PVal)
    (h : ps.any (fun p => p.1 == k) = true) :
    (ps.map (fun p => if p.1 == k then (k, v) else p)).find?
      (fun p => p.1 == k) = some (k, v) := by
  induction ps with
  | nil => simp at h
  | cons q qs ih =>
    by_cases hq : (q.1 == k) = true
    · simp [List.find?, hq]
    · have h' : qs.any (fun p => p.1 == k) = true := by
        simpa [List.any_cons, hq] using h
      simpa [List.find?, hq] using ih h'

theorem find?_update_ne (ps : List (String × PVal)) (k kq : String) (v : PVal)
    (h : kq ≠ k) :
    (ps.map (fun p => if p.1 == k then (k, v) else p)).find?
      (fun p => p.1 == kq) = ps.find? (fun p => p.1 == kq) := by
  induction ps with
  | nil => rfl
  | cons q qs ih =>
    rw [List.map_cons]
    by_cases hq : (q.1 == k) = true
    · have hq1 : q.1 = k := by simpa using hq
      have hne : ((k : String) == kq) = false :=
        beq_eq_false_iff_ne.mpr (Ne.symm h)
      have hne2 : (q.1 == kq) = false := by rw [hq1]; exact hne
      rw [if_pos hq]
      rw [List.find?_cons_of_neg _ (by simp [hne]),
          List.find?_cons_of_neg _ (by simp [hne2])]
      exact ih
    · rw [if_neg hq]
      by_cases hmatch : (q.1 == kq) = true
      · rw [List.find?_cons, List.find?_cons]
        rw [hmatch]
      · have hm : (q.1 == kq) = false := by simpa using hmatch
        rw [List.find?_cons, List.find?_cons]
        rw [hm]
        exact ih

theorem dictGet_dictInsert_self (ps : List (String × PVal)) (k : String)
    (v : PVal) :
    dictGet (dictInsert ps k v) k = some v := by
  unfold dictGet dictInsert
  by_cases h : ps.any (fun p => p.1 == k) = true
  · rw [if_pos h, find?_update ps k v h]
    rfl
  · rw [if_neg h]
    have hnone : ps.find? (fun p => p.1 == k) = none := by
      rw [List.find?_eq_none]
      intro p hp hpk
      exact h (List.any_eq_true.mpr ⟨p, hp, hpk⟩)
    rw [List.find?_append, hnone]
    simp [List.find?]

theorem dictGet_dictInsert_ne (ps : List (String × PVal)) (k kq : String)
    (v : PVal) (h : kq ≠ k) :
    dictGet (dictInsert ps k v) kq = dictGet ps kq := by
  unfold dictGet dictInsert
  by_cases hp : ps.any (fun p => p.1 == k) = true
  · rw [if_pos hp, find?_update_ne ps k kq v h]
  · rw [if_neg hp, List.find?_append]
    have hne : ((k : String) == kq) = false :=
      beq_eq_false_iff_ne.mpr (Ne.symm h)
    have hlast : ([(k, v)].find? (fun p => p.1 == kq)) = none := by
      rw [List.find?_cons_of_neg _ (by simp [hne])]
      rfl
    rw [hlast]
    cases ps.find? (fun p => p.1 == kq) <;> rfl

theorem propFold_no_key (l : List IfcAttr) (ps : List (String × PVal))
    (k : String)
    (h : ∀ a ∈ l, attributes_type.contains a.argType = false → a.name ≠ k) :
    dictGet (l.foldl propStep ps) k = dictGet ps k := by
  induction l generalizing ps with
  | nil => rfl
  | cons a l ih =>
    rw [List.foldl_cons,
        ih _ (fun b hb => h b (List.mem_cons_of_mem _ hb))]
    unfold propStep
    by_cases ha : attributes_type.contains a.argType = true
    · rw [if_pos ha]
    · have hf : attributes_type.contains a.argType = false := by
        simpa using ha
      rw [if_neg ha]
      exact dictGet_dictInsert_ne _ _ _ _
        (Ne.symm (h a (List.mem_cons_self _ _) hf))

theorem propFold_last_key (l1 l2 : List IfcAttr) (a : IfcAttr)
    (ps : List (String × PVal)) (k : String)
    (hstored : attributes_type.contains a.argType = false)
    (hname : a.name = k)
    (h2 : ∀ b ∈ l2, attributes_type.contains b.argType = false → b.name ≠ k) :
    dictGet ((l1 ++ a :: l2).foldl propStep ps) k = some a.val.getArgument := by
  rw [List.foldl_append, List.foldl_cons, propFold_no_key l2 _ k h2]
  unfold propStep
  have hnm : ¬(attributes_type.contains a.argType = true) := fun hc => by
    rw [hstored] at hc
    exact Bool.false_ne_true hc
  rw [if_neg hnm, hname]
  exact dictGet_dictInsert_self _ _ _

theorem aggFold_nodes (f : IfcFile) (node : Node) (aname : String)
    (subs : List IfcEntity) (acc : Graph × Nat) :
    ((subs.foldl (aggStep f node aname) acc).1).nodes = acc.1.nodes := by
  induction subs generalizing acc with
  | nil => rfl
  | cons s ss ih =>
    rw [List.foldl_cons, ih]
    rfl

theorem invFold_nodes (f : IfcFile) (node : Node) (relName : String)
    (ids : List Nat) (acc : Graph × Nat) :
    ((ids.foldl (invStep f node relName) acc).1).nodes = acc.1.nodes := by
  induction ids generalizing acc with
  | nil => rfl
  | cons i is ih =>
    rw [List.foldl_cons, ih]
    rfl

theorem extractAttrStep_nodes (f : IfcFile) (node : Node) (e : IfcEntity)
    (acc : Graph × Nat) (a : IfcAttr) :
    ((extractAttrStep f node e acc a).1).nodes = acc.1.nodes := by
  unfold extractAttrStep
  repeat' split
  all_goals first | rfl | apply aggFold_nodes

theorem extractInvStep_nodes (f : IfcFile) (node : Node) (e : IfcEntity)
    (acc : Graph × Nat) (relName : String) :
    ((extractInvStep f node e acc relName).1).nodes = acc.1.nodes := by
  unfold extractInvStep
  split
  · rfl
  · apply invFold_nodes

theorem attrFold_nodes (f : IfcFile) (node : Node) (e : IfcEntity)
    (l : List IfcAttr) (acc : Graph × Nat) :
    ((l.foldl (extractAttrStep f node e) acc).1).nodes = acc.1.nodes := by
  induction l generalizing acc with
  | nil => rfl
  | cons a l ih =>
    rw [List.foldl_cons, ih, extractAttrStep_nodes]

theorem invNamesFold_nodes (f : IfcFile) (node : Node) (e : IfcEntity)
    (l : List String) (acc : Graph × Nat) :
    ((l.foldl (extractInvStep f node e) acc).1).nodes = acc.1.nodes := by
  induction l generalizing acc with
  | nil => rfl
  | cons n l ih =>
    rw [List.foldl_cons, ih, extractInvStep_nodes]

/-! ### Claim theorems -/

/-- C4: for built Node values (whose identities are strings), equality and
hash agreement hold exactly when the identity strings are equal, and
equality/hash are functions of the primary key alone — the label set and
the property mapping of a node never influence them. -/
theorem C4_node_identity_contract (a b : Node) (sa sb : String)
    (ha : a.primaryKey = some (PVal.str sa))
    (hb : b.primaryKey = some (PVal.str sb)) :
    (nodeEq a b = true ↔ sa = sb) ∧
    (nodeHash a = nodeHash b ↔ sa = sb) ∧
    (∀ (c : Node), c.primaryKey = a.primaryKey →
      nodeEq c b = nodeEq a b ∧ nodeHash c = nodeHash a) := by
  refine ⟨?_, ?_, ?_⟩
  · simp [nodeEq, nodeHash, ha, hb]
  · simp [nodeHash, ha, hb]
  · intro c hpk
    exact ⟨by simp [nodeEq, nodeHash, hpk], by simp [nodeHash, hpk]⟩

/-- Witness for C4 at two concrete nodes with the same identity string but
different labels and properties. -/
theorem C4_node_identity_contract_witness :
    (nodeEq ⟨[], [], none, some (PVal.str "1")⟩
        ⟨[("x", PVal.num 3)], ["L"], none, some (PVal.str "1")⟩ = true ↔
      "1" = "1") ∧
    (nodeHash ⟨[], [], none, some (PVal.str "1")⟩
        = nodeHash ⟨[("x", PVal.num 3)], ["L"], none, some (PVal.str "1")⟩ ↔
      "1" = "1") ∧
    (∀ (c : Node),
      c.primaryKey = Node.primaryKey ⟨[], [], none, some (PVal.str "1")⟩ →
      nodeEq c ⟨[("x", PVal.num 3)], ["L"], none, some (PVal.str "1")⟩
          = nodeEq ⟨[], [], none, some (PVal.str "1")⟩
              ⟨[("x", PVal.num 3)], ["L"], none, some (PVal.str "1")⟩ ∧
        nodeHash c = nodeHash ⟨[], [], none, some (PVal.str "1")⟩) :=
  C4_node_identity_contract _ _ "1" "1" rfl rfl

/-- C9: `Graph.merge` type-dispatches — a `Node` is inserted into the node
set, a `Relationship` into the relationship set (never raising), and any
other input raises a `TypeError`; in the explicit-state model the error
branch returns no modified graph, so the failed call leaves the caller's
node set and relationship set untouched. -/
theorem C9_merge_type_dispatch (g : Graph) :
    (∀ s, g.merge (GEntity.other s)
        = Except.error "Can only merge nodes and relationships") ∧
    (∀ n, g.merge (GEntity.node n) = Except.ok (g.mergeNode n)) ∧
    (∀ r, g.merge (GEntity.rel r) = Except.ok (g.mergeRel r)) :=
  ⟨fun _ => rfl, fun _ => rfl, fun _ => rfl⟩

/-- C7: graph insertion is idempotent under the identity contracts —
inserting a node whose identity equals an accumulated node's identity
leaves the node set unchanged (first-write-wins), and inserting a
relationship whose (source identity, type, target identity) triple equals
an accumulated one leaves the relationship set unchanged. -/
theorem C7_merge_idempotent (g : Graph) (n m : Node) (r s : Relationship)
    (hm : m ∈ g.nodes) (hk : m.primaryKey = n.primaryKey)
    (hs : s ∈ g.relationships)
    (h1 : s.start_node.primaryKey = r.start_node.primaryKey)
    (h2 : s.rel_type = r.rel_type)
    (h3 : s.end_node.primaryKey = r.end_node.primaryKey) :
    (g.mergeNode n).nodes = g.nodes ∧
    (g.mergeRel r).relationships = g.relationships := by
  constructor
  · have hany : g.nodes.any (fun x => nodeEq x n) = true :=
      List.any_eq_true.mpr ⟨m, hm, by simp [nodeEq, nodeHash, hk]⟩
    show setAddNode g.nodes n = g.nodes
    unfold setAddNode
    rw [if_pos hany]
  · have hany : g.relationships.any (fun x => relEq x r) = true :=
      List.any_eq_true.mpr
        ⟨s, hs, by simp [relEq, relHash, nodeHash, h1, h2, h3]⟩
    show setAddRel g.relationships r = g.relationships
    unfold setAddRel
    rw [if_pos hany]

/-- Witness for C7: re-inserting a node with the identity "1" (different
properties) and a relationship with the same endpoint identities and type
leaves a concrete one-node, one-relationship graph unchanged. -/
theorem C7_merge_idempotent_witness :
    (Graph.mergeNode
        ⟨[⟨[], [], none, some (PVal.str "1")⟩],
         [⟨⟨[], [], none, some (PVal.str "1")⟩, "R",
           ⟨[], [], none, some (PVal.str "1")⟩⟩]⟩
        ⟨[("p", PVal.num 1)], [], none, some (PVal.str "1")⟩).nodes
      = [⟨[], [], none, some (PVal.str "1")⟩] ∧
    (Graph.mergeRel
        ⟨[⟨[], [], none, some (PVal.str "1")⟩],
         [⟨⟨[], [], none, some (PVal.str "1")⟩, "R",
           ⟨[], [], none, some (PVal.str "1")⟩⟩]⟩
        ⟨⟨[("p", PVal.num 1)], [], none, some (PVal.str "1")⟩, "R",
          ⟨[], ["L"], none, some (PVal.str "1")⟩⟩).relationships
      = [⟨⟨[], [], none, some (PVal.str "1")⟩, "R",
          ⟨[], [], none, some (PVal.str "1")⟩⟩] :=
  C7_merge_idempotent
    ⟨[⟨[], [], none, some (PVal.str "1")⟩],
     [⟨⟨[], [], none, some (PVal.str "1")⟩, "R",
       ⟨[], [], none, some (PVal.str "1")⟩⟩]⟩
    ⟨[("p", PVal.num 1)], [], none, some (PVal.str "1")⟩
    ⟨[], [], none, some (PVal.str "1")⟩
    ⟨⟨[("p", PVal.num 1)], [], none, some (PVal.str "1")⟩, "R",
      ⟨[], ["L"], none, some (PVal.str "1")⟩⟩
    ⟨⟨[], [], none, some (PVal.str "1")⟩, "R",
      ⟨[], [], none, some (PVal.str "1")⟩⟩
    (by decide) (by decide) (by decide) (by decide) (by decide) (by decide)

/-- C8: with hierarchy = true the built node's label set contains `T`
exactly when `T` is in the file's global type index and `entity.is_a(T)`
holds; with hierarchy = false the label set is exactly the singleton of the
entity's primary type tag. -/
theorem C8_hierarchy_labels (e : IfcEntity) (f : IfcFile) (u : Nat)
    (T : String) :
    (T ∈ ((create_pure_node_from_ifc_entity e f true u).1).labels ↔
      T ∈ f.typesWithSuper ∧ e.isA T = true) ∧
    ((create_pure_node_from_ifc_entity e f false u).1).labels
      = [e.typeTag] := by
  constructor
  · show T ∈ f.typesWithSuper.foldl
        (fun ls label => if e.isA label then addLabel ls label else ls) [] ↔ _
    rw [mem_labelFold]
    simp
  · rfl

theorem uuidString_inj {a b : Nat} (h : uuidString a = uuidString b) :
    a = b := by
  have hd : ('u' :: 'u' :: 'i' :: 'd' :: '-' :: List.replicate a 'x')
      = ('u' :: 'u' :: 'i' :: 'd' :: '-' :: List.replicate b 'x') :=
    congrArg String.data h
  have hrep : List.replicate a 'x' = List.replicate b 'x' := by
    injection hd with h0 hd1
    injection hd1 with h1 hd2
    injection hd2 with h2 hd3
    injection hd3 with h3 hd4
    injection hd4 with h4 hd5
  have hlen := congrArg List.length hrep
  simpa using hlen

theorem builder_key_zero (e : IfcEntity) (f : IfcFile) (h : Bool) (u : Nat)
    (hz : e.eid = 0)
    (hid : ∀ a ∈ e.attrs,
      attributes_type.contains a.argType = false → a.name ≠ "id") :
    (create_pure_node_from_ifc_entity e f h u).1.primaryKey
      = some (PVal.str (uuidString u)) ∧
    (create_pure_node_from_ifc_entity e f h u).2 = u + 1 := by
  have hb : (e.eid != 0) = false := by simp [hz]
  constructor
  · show dictGet (e.attrs.foldl propStep _) "id" = _
    rw [propFold_no_key _ _ _ hid]
    rw [hb]
    rw [dictGet_dictInsert_ne _ _ _ _ (by decide)]
    rw [dictGet_dictInsert_self]
    rfl
  · show (if e.eid != 0 then (toString e.eid, u)
          else (uuidString u, u + 1)).2 = u + 1
    rw [hb]
    rfl

/-- C5 counterexample: the builder is not a pure function of its inputs —
for an entity with native identifier 0 (here an inline "IfcLabel" value),
two successive invocations with identical entity, file and hierarchy
arguments (the second running in the uuid-generator state left by the
first) return nodes that differ. -/
theorem C5_counterexample :
    (create_pure_node_from_ifc_entity (IfcEntity.mk 0 "IfcLabel" [] [] [])
        (IfcFile.mk [] (fun _ => IfcEntity.mk 0 "IfcLabel" [] [] []) [])
        true 0).1
      ≠
    (create_pure_node_from_ifc_entity (IfcEntity.mk 0 "IfcLabel" [] [] [])
        (IfcFile.mk [] (fun _ => IfcEntity.mk 0 "IfcLabel" [] [] []) [])
        true
        ((create_pure_node_from_ifc_entity (IfcEntity.mk 0 "IfcLabel" [] [] [])
            (IfcFile.mk [] (fun _ => IfcEntity.mk 0 "IfcLabel" [] [] []) [])
            true 0).2)).1 := by
  decide

/-- C5 (amended): the builder has no side effect other than consuming the
synthetic-identity generator, and for every entity whose native identifier
is non-zero it is a pure function of its inputs: the returned node is
independent of the generator state, and the state is returned unchanged.
For entities with identifier 0 the builder consumes the generator and
purity fails, as the counterexample shows; whether the identities drawn
there are fresh is the subject of claim C6 and holds only under its
no-"id"-attribute proviso. -/
theorem C5_builder_pure_for_nonzero_id (e : IfcEntity) (f : IfcFile)
    (h : Bool) (u v : Nat) (hz : e.eid ≠ 0) :
    (create_pure_node_from_ifc_entity e f h u).1
      = (create_pure_node_from_ifc_entity e f h v).1 ∧
    (create_pure_node_from_ifc_entity e f h u).2 = u := by
  have hb : (e.eid != 0) = true := by simpa using hz
  unfold create_pure_node_from_ifc_entity
  rw [hb]
  exact ⟨rfl, rfl⟩

/-- Witness for the amended C5 at a concrete entity with identifier 7:
generator states 0 and 5 yield the same node, and the state is returned
unchanged. -/
theorem C5_builder_pure_for_nonzero_id_witness :
    (create_pure_node_from_ifc_entity (IfcEntity.mk 7 "IfcWall" [] [] [])
        (IfcFile.mk [] (fun _ => IfcEntity.mk 7 "IfcWall" [] [] []) [])
        true 0).1
      = (create_pure_node_from_ifc_entity (IfcEntity.mk 7 "IfcWall" [] [] [])
          (IfcFile.mk [] (fun _ => IfcEntity.mk 7 "IfcWall" [] [] []) [])
          true 5).1 ∧
    (create_pure_node_from_ifc_entity (IfcEntity.mk 7 "IfcWall" [] [] [])
        (IfcFile.mk [] (fun _ => IfcEntity.mk 7 "IfcWall" [] [] []) [])
        true 0).2 = 0 :=
  C5_builder_pure_for_nonzero_id _ _ true 0 5 (by decide)

/-- C6 (amended): two builder invocations on entities with native
identifier 0 — in sequence, the second running in the generator state
returned by the first — yield nodes with distinct identity strings,
provided neither entity carries a stored attribute literally named "id"
(such an attribute overwrites the synthetic identity, see the theorem for
claim C10, and can force the two identities to coincide, see the C6
counterexample). -/
theorem C6_fresh_identities (e1 e2 : IfcEntity) (f1 f2 : IfcFile)
    (h1 h2 : Bool) (u : Nat) (hz1 : e1.eid = 0) (hz2 : e2.eid = 0)
    (hid1 : ∀ a ∈ e1.attrs,
      attributes_type.contains a.argType = false → a.name ≠ "id")
    (hid2 : ∀ a ∈ e2.attrs,
      attributes_type.contains a.argType = false → a.name ≠ "id") :
    (create_pure_node_from_ifc_entity e1 f1 h1 u).1.primaryKey
      ≠ (create_pure_node_from_ifc_entity e2 f2 h2
          ((create_pure_node_from_ifc_entity e1 f1 h1 u).2)).1.primaryKey := by
  obtain ⟨hk1, hs1⟩ := builder_key_zero e1 f1 h1 u hz1 hid1
  obtain ⟨hk2, _⟩ :=
    builder_key_zero e2 f2 h2
      ((create_pure_node_from_ifc_entity e1 f1 h1 u).2) hz2 hid2
  rw [hk1, hk2, hs1]
  intro heq
  have hstr : uuidString u = uuidString (u + 1) := by
    injection heq with heq1
    injection heq1 with heq2
  have := uuidString_inj hstr
  omega

/-- Witness for the amended C6: two attribute-free id-0 entities built in
sequence from generator state 0 receive distinct identities. -/
theorem C6_fresh_identities_witness :
    (create_pure_node_from_ifc_entity (IfcEntity.mk 0 "IfcLabel" [] [] [])
        (IfcFile.mk [] (fun _ => IfcEntity.mk 0 "IfcLabel" [] [] []) [])
        true 0).1.primaryKey
      ≠ (create_pure_node_from_ifc_entity (IfcEntity.mk 0 "IfcText" [] [] [])
          (IfcFile.mk [] (fun _ => IfcEntity.mk 0 "IfcText" [] [] []) [])
          false
          ((create_pure_node_from_ifc_entity
              (IfcEntity.mk 0 "IfcLabel" [] [] [])
              (IfcFile.mk [] (fun _ => IfcEntity.mk 0 "IfcLabel" [] [] []) [])
              true 0).2)).1.primaryKey :=
  C6_fresh_identities _ _ _ _ true false 0 (by decide) (by decide)
    (by simp [IfcEntity.attrs]) (by simp [IfcEntity.attrs])

/-- C6 counterexample: the claim as stated fails — two builder invocations
on an id-0 entity that carries a stored attribute literally named "id"
(value "X") return nodes with the same identity string "X", because the
attribute loop overwrites the freshly drawn synthetic identity before the
primary key is captured. -/
theorem C6_counterexample :
    (create_pure_node_from_ifc_entity
        (IfcEntity.mk 0 "IfcLabel" []
          [IfcAttr.mk "id" "STRING" (AttrVal.scalar (PVal.str "X"))] [])
        (IfcFile.mk [] (fun _ => IfcEntity.mk 0 "IfcLabel" [] [] []) [])
        true 0).1.primaryKey
      = (create_pure_node_from_ifc_entity
          (IfcEntity.mk 0 "IfcLabel" []
            [IfcAttr.mk "id" "STRING" (AttrVal.scalar (PVal.str "X"))] [])
          (IfcFile.mk [] (fun _ => IfcEntity.mk 0 "IfcLabel" [] [] []) [])
          true
          ((create_pure_node_from_ifc_entity
              (IfcEntity.mk 0 "IfcLabel" []
                [IfcAttr.mk "id" "STRING" (AttrVal.scalar (PVal.str "X"))] [])
              (IfcFile.mk [] (fun _ => IfcEntity.mk 0 "IfcLabel" [] [] []) [])
              true 0).2)).1.primaryKey ∧
    (create_pure_node_from_ifc_entity
        (IfcEntity.mk 0 "IfcLabel" []
          [IfcAttr.mk "id" "STRING" (AttrVal.scalar (PVal.str "X"))] [])
        (IfcFile.mk [] (fun _ => IfcEntity.mk 0 "IfcLabel" [] [] []) [])
        true 0).1.primaryKey = some (PVal.str "X") := by
  decide

/-- C10: a stored (non-entity, non-aggregate, non-derived) attribute whose
name is literally "id" (resp. "name") is written over the previously stored
identity (resp. type-tag) dict entry by the attribute loop, and since the
primary key and primary label are captured only afterwards, the returned
node's identity (resp. primary label) is that attribute's value rather than
the native identifier (resp. the primary type tag).  The decompositions
locate the last such attribute in the attribute list. -/
theorem C10_id_name_attr_overwrite (e : IfcEntity) (f : IfcFile) (h : Bool)
    (u : Nat) (l1 l2 m1 m2 : List IfcAttr) (aid an : IfcAttr)
    (hsplit1 : e.attrs = l1 ++ aid :: l2)
    (haid_stored : attributes_type.contains aid.argType = false)
    (haid_name : aid.name = "id")
    (hl2 : ∀ b ∈ l2,
      attributes_type.contains b.argType = false → b.name ≠ "id")
    (hsplit2 : e.attrs = m1 ++ an :: m2)
    (han_stored : attributes_type.contains an.argType = false)
    (han_name : an.name = "name")
    (hm2 : ∀ b ∈ m2,
      attributes_type.contains b.argType = false → b.name ≠ "name") :
    (create_pure_node_from_ifc_entity e f h u).1.primaryKey
      = some aid.val.getArgument ∧
    (create_pure_node_from_ifc_entity e f h u).1.primaryLabel
      = some an.val.getArgument := by
  constructor
  · show dictGet (e.attrs.foldl propStep _) "id" = _
    rw [hsplit1]
    exact propFold_last_key _ _ _ _ _ haid_stored haid_name hl2
  · show dictGet (e.attrs.foldl propStep _) "name" = _
    rw [hsplit2]
    exact propFold_last_key _ _ _ _ _ han_stored han_name hm2

/-- Witness for C10: a concrete entity with identifier 3 and stored
attributes "id" = "X" and "name" = 9 builds to a node whose identity is
"X" (not "3") and whose primary label is 9 (not "IfcWall"). -/
theorem C10_id_name_attr_overwrite_witness :
    (create_pure_node_from_ifc_entity
        (IfcEntity.mk 3 "IfcWall" []
          [IfcAttr.mk "id" "STRING" (AttrVal.scalar (PVal.str "X")),
           IfcAttr.mk "name" "INT" (AttrVal.scalar (PVal.num 9))] [])
        (IfcFile.mk [] (fun _ => IfcEntity.mk 3 "IfcWall" [] [] []) [])
        true 0).1.primaryKey
      = some ((IfcAttr.mk "id" "STRING"
          (AttrVal.scalar (PVal.str "X"))).val).getArgument ∧
    (create_pure_node_from_ifc_entity
        (IfcEntity.mk 3 "IfcWall" []
          [IfcAttr.mk "id" "STRING" (AttrVal.scalar (PVal.str "X")),
           IfcAttr.mk "name" "INT" (AttrVal.scalar (PVal.num 9))] [])
        (IfcFile.mk [] (fun _ => IfcEntity.mk 3 "IfcWall" [] [] []) [])
        true 0).1.primaryLabel
      = some ((IfcAttr.mk "name" "INT"
          (AttrVal.scalar (PVal.num 9))).val).getArgument :=
  C10_id_name_attr_overwrite _ _ true 0
    [] [IfcAttr.mk "name" "INT" (AttrVal.scalar (PVal.num 9))]
    [IfcAttr.mk "id" "STRING" (AttrVal.scalar (PVal.str "X"))] []
    (IfcAttr.mk "id" "STRING" (AttrVal.scalar (PVal.str "X")))
    (IfcAttr.mk "name" "INT" (AttrVal.scalar (PVal.num 9)))
    rfl (by decide) rfl (by decide) rfl (by decide) rfl (by decide)

/-- C1 counterexample: extracting a concrete "IfcWall" entity (id 1) with a
single-entity-reference attribute to an "IfcBeam" entity (id 2) into an
empty graph creates the relationship with endpoint identity "2" but does
not insert the referenced entity's node — no node with identity "2" is in
the node set, so a relationship endpoint created by extraction is absent
from `graph.nodes`. -/
theorem C1_counterexample :
    (((create_graph_from_ifc_entity_all ⟨[], []⟩
        (IfcEntity.mk 1 "IfcWall" []
          [IfcAttr.mk "Attr" "ENTITY INSTANCE"
            (AttrVal.entity (IfcEntity.mk 2 "IfcBeam" [] [] []))] [])
        (IfcFile.mk [] (fun _ => IfcEntity.mk 2 "IfcBeam" [] [] []) [])
        0).1).relationships.map (fun r => r.end_node.primaryKey)
      = [some (PVal.str "2")]) ∧
    (∀ n ∈ ((create_graph_from_ifc_entity_all ⟨[], []⟩
        (IfcEntity.mk 1 "IfcWall" []
          [IfcAttr.mk "Attr" "ENTITY INSTANCE"
            (AttrVal.entity (IfcEntity.mk 2 "IfcBeam" [] [] []))] [])
        (IfcFile.mk [] (fun _ => IfcEntity.mk 2 "IfcBeam" [] [] []) [])
        0).1).nodes, n.primaryKey ≠ some (PVal.str "2")) := by
  decide

/-- C1 (amended): for every processed single-entity-reference attribute the
extractor inserts the relationship `(entity-node, attribute_name,
referenced-node)` into the relationship set, but it does not insert the
referenced entity's node: the only node insertion performed by
`create_graph_from_ifc_entity_all` is the extracted entity's own node, so
after extraction a relationship endpoint need not be present in
`graph.nodes`. -/
theorem C1_extract_inserts_rel_not_endpoint (graph : Graph) (e : IfcEntity)
    (f : IfcFile) (u : Nat) :
    ((create_graph_from_ifc_entity_all graph e f u).1).nodes
      = setAddNode graph.nodes
          (create_pure_node_from_ifc_entity e f true u).1
    ∧ ∀ (node : Node) (acc : Graph × Nat) (a : IfcAttr) (sub : IfcEntity),
        a.val = AttrVal.entity sub → a.argType = "ENTITY INSTANCE" →
        (sub.typeTag = "IfcOwnerHistory" → e.typeTag = "IfcProject") →
        extractAttrStep f node e acc a
          = (acc.1.mergeRel
              ⟨node, a.name,
               (create_pure_node_from_ifc_entity sub f true acc.2).1⟩,
             (create_pure_node_from_ifc_entity sub f true acc.2).2) := by
  constructor
  · show (((e.inv.map (fun p => p.1)).foldl
        (extractInvStep f (create_pure_node_from_ifc_entity e f true u).1 e)
        (e.attrs.foldl
          (extractAttrStep f
            (create_pure_node_from_ifc_entity e f true u).1 e)
          (graph.mergeNode (create_pure_node_from_ifc_entity e f true u).1,
           (create_pure_node_from_ifc_entity e f true u).2))).1).nodes = _
    rw [invNamesFold_nodes, attrFold_nodes]
    rfl
  · intro node acc a sub hval htype hskip
    unfold extractAttrStep
    rw [hval, htype]
    have hsk : ((["IfcOwnerHistory"].contains sub.typeTag)
        && e.typeTag != "IfcProject") = false := by
      by_cases hsub : sub.typeTag = "IfcOwnerHistory"
      · have hp := hskip hsub
        simp [hp]
      · simp [hsub]
    simp [AttrVal.truthy, hsk]
    intro hsub hnp
    exact absurd (hskip hsub) hnp

/-- Witness for the amended C1 at a concrete wall entity referencing a beam
entity: the node set after extraction is exactly the wall's own node, and
the attribute step merges exactly the relationship. -/
theorem C1_extract_inserts_rel_not_endpoint_witness :
    ((create_graph_from_ifc_entity_all ⟨[], []⟩
        (IfcEntity.mk 1 "IfcWall" []
          [IfcAttr.mk "Attr" "ENTITY INSTANCE"
            (AttrVal.entity (IfcEntity.mk 2 "IfcBeam" [] [] []))] [])
        (IfcFile.mk [] (fun _ => IfcEntity.mk 2 "IfcBeam" [] [] []) [])
        0).1).nodes
      = setAddNode []
          (create_pure_node_from_ifc_entity
            (IfcEntity.mk 1 "IfcWall" []
              [IfcAttr.mk "Attr" "ENTITY INSTANCE"
                (AttrVal.entity (IfcEntity.mk 2 "IfcBeam" [] [] []))] [])
            (IfcFile.mk [] (fun _ => IfcEntity.mk 2 "IfcBeam" [] [] []) [])
            true 0).1
    ∧ extractAttrStep
        (IfcFile.mk [] (fun _ => IfcEntity.mk 2 "IfcBeam" [] [] []) [])
        ⟨[], [], none, none⟩
        (IfcEntity.mk 1 "IfcWall" []
          [IfcAttr.mk "Attr" "ENTITY INSTANCE"
            (AttrVal.entity (IfcEntity.mk 2 "IfcBeam" [] [] []))] [])
        (⟨[], []⟩, 0)
        (IfcAttr.mk "Attr" "ENTITY INSTANCE"
          (AttrVal.entity (IfcEntity.mk 2 "IfcBeam" [] [] [])))
      = ((Graph.mk [] []).mergeRel
          ⟨⟨[], [], none, none⟩, "Attr",
           (create_pure_node_from_ifc_entity (IfcEntity.mk 2 "IfcBeam" [] [] [])
              (IfcFile.mk [] (fun _ => IfcEntity.mk 2 "IfcBeam" [] [] []) [])
              true 0).1⟩,
         (create_pure_node_from_ifc_entity (IfcEntity.mk 2 "IfcBeam" [] [] [])
            (IfcFile.mk [] (fun _ => IfcEntity.mk 2 "IfcBeam" [] [] []) [])
            true 0).2) :=
  ⟨(C1_extract_inserts_rel_not_endpoint ⟨[], []⟩
      (IfcEntity.mk 1 "IfcWall" []
        [IfcAttr.mk "Attr" "ENTITY INSTANCE"
          (AttrVal.entity (IfcEntity.mk 2 "IfcBeam" [] [] []))] [])
      (IfcFile.mk [] (fun _ => IfcEntity.mk 2 "IfcBeam" [] [] []) []) 0).1,
   (C1_extract_inserts_rel_not_endpoint ⟨[], []⟩
      (IfcEntity.mk 1 "IfcWall" []
        [IfcAttr.mk "Attr" "ENTITY INSTANCE"
          (AttrVal.entity (IfcEntity.mk 2 "IfcBeam" [] [] []))] [])
      (IfcFile.mk [] (fun _ => IfcEntity.mk 2 "IfcBeam" [] [] []) []) 0).2
     ⟨[], [], none, none⟩ (⟨[], []⟩, 0)
     (IfcAttr.mk "Attr" "ENTITY INSTANCE"
       (AttrVal.entity (IfcEntity.mk 2 "IfcBeam" [] [] [])))
     (IfcEntity.mk 2 "IfcBeam" [] [] [])
     rfl rfl (by decide)⟩

/-- C2 counterexample: a concrete "IfcProject" entity (id 1) with a
single-entity-reference attribute to an "IfcOwnerHistory" entity (id 2)
does produce the relationship `(node1, "OwnerHistory", node2)`, but — contra
the claim — produces no node for the referenced entity: no node with
identity "2" is inserted into the node set. -/
theorem C2_counterexample :
    ((((create_graph_from_ifc_entity_all ⟨[], []⟩
        (IfcEntity.mk 1 "IfcProject" []
          [IfcAttr.mk "OwnerHistory" "ENTITY INSTANCE"
            (AttrVal.entity (IfcEntity.mk 2 "IfcOwnerHistory" [] [] []))] [])
        (IfcFile.mk []
          (fun _ => IfcEntity.mk 2 "IfcOwnerHistory" [] [] []) [])
        0).1).relationships.map
        (fun r => (r.start_node.primaryKey, r.rel_type,
                   r.end_node.primaryKey)))
      = [(some (PVal.str "1"), "OwnerHistory", some (PVal.str "2"))]) ∧
    (∀ n ∈ ((create_graph_from_ifc_entity_all ⟨[], []⟩
        (IfcEntity.mk 1 "IfcProject" []
          [IfcAttr.mk "OwnerHistory" "ENTITY INSTANCE"
            (AttrVal.entity (IfcEntity.mk 2 "IfcOwnerHistory" [] [] []))] [])
        (IfcFile.mk []
          (fun _ => IfcEntity.mk 2 "IfcOwnerHistory" [] [] []) [])
        0).1).nodes, n.primaryKey ≠ some (PVal.str "2")) := by
  decide

/-- C2 (amended): a single-entity-reference attribute pointing at an
"IfcOwnerHistory" entity is skipped entirely (no node, no relationship,
accumulator returned unchanged) when the extracting entity's type tag is
not "IfcProject"; when it is "IfcProject", the attribute step merges the
relationship `(entity-node, attribute_name, referenced-node)` — but in
neither case is the referenced entity's node inserted into the node set
(the node set of the accumulator is unchanged by the attribute step). -/
theorem C2_ownerhistory_skip_rule (f : IfcFile) (node : Node)
    (e : IfcEntity) (acc : Graph × Nat) (a : IfcAttr) (sub : IfcEntity)
    (hval : a.val = AttrVal.entity sub)
    (htype : a.argType = "ENTITY INSTANCE")
    (hsub : sub.typeTag = "IfcOwnerHistory") :
    (e.typeTag ≠ "IfcProject" → extractAttrStep f node e acc a = acc) ∧
    (e.typeTag = "IfcProject" →
      extractAttrStep f node e acc a
        = (acc.1.mergeRel
            ⟨node, a.name,
             (create_pure_node_from_ifc_entity sub f true acc.2).1⟩,
           (create_pure_node_from_ifc_entity sub f true acc.2).2)) ∧
    ((extractAttrStep f node e acc a).1).nodes = acc.1.nodes := by
  refine ⟨?_, ?_, extractAttrStep_nodes f node e acc a⟩
  · intro hne
    unfold extractAttrStep
    rw [hval, htype]
    have hsk : ((["IfcOwnerHistory"].contains sub.typeTag)
        && e.typeTag != "IfcProject") = true := by
      simp [hsub, hne]
    show (if ((["IfcOwnerHistory"].contains sub.typeTag)
          && e.typeTag != "IfcProject") = true then acc
        else (acc.1.mergeRel
            ⟨node, a.name,
             (create_pure_node_from_ifc_entity sub f true acc.2).1⟩,
          (create_pure_node_from_ifc_entity sub f true acc.2).2)) = acc
    rw [if_pos hsk]
  · intro hpe
    unfold extractAttrStep
    rw [hval, htype]
    have hsk : ¬(((["IfcOwnerHistory"].contains sub.typeTag)
        && e.typeTag != "IfcProject") = true) := by
      simp [hpe]
    show (if ((["IfcOwnerHistory"].contains sub.typeTag)
          && e.typeTag != "IfcProject") = true then acc
        else (acc.1.mergeRel
            ⟨node, a.name,
             (create_pure_node_from_ifc_entity sub f true acc.2).1⟩,
          (create_pure_node_from_ifc_entity sub f true acc.2).2))
      = (acc.1.mergeRel
          ⟨node, a.name,
           (create_pure_node_from_ifc_entity sub f true acc.2).1⟩,
         (create_pure_node_from_ifc_entity sub f true acc.2).2)
    rw [if_neg hsk]

/-- Witness for the amended C2 at a concrete "IfcProject" entity
referencing an "IfcOwnerHistory" entity. -/
theorem C2_ownerhistory_skip_rule_witness :
    (IfcEntity.typeTag (IfcEntity.mk 1 "IfcProject" [] [] [])
        ≠ "IfcProject" →
      extractAttrStep
        (IfcFile.mk []
          (fun _ => IfcEntity.mk 2 "IfcOwnerHistory" [] [] []) [])
        ⟨[], [], none, none⟩ (IfcEntity.mk 1 "IfcProject" [] [] [])
        (⟨[], []⟩, 0)
        (IfcAttr.mk "OwnerHistory" "ENTITY INSTANCE"
          (AttrVal.entity (IfcEntity.mk 2 "IfcOwnerHistory" [] [] [])))
        = (⟨[], []⟩, 0)) ∧
    (IfcEntity.typeTag (IfcEntity.mk 1 "IfcProject" [] [] [])
        = "IfcProject" →
      extractAttrStep
        (IfcFile.mk []
          (fun _ => IfcEntity.mk 2 "IfcOwnerHistory" [] [] []) [])
        ⟨[], [], none, none⟩ (IfcEntity.mk 1 "IfcProject" [] [] [])
        (⟨[], []⟩, 0)
        (IfcAttr.mk "OwnerHistory" "ENTITY INSTANCE"
          (AttrVal.entity (IfcEntity.mk 2 "IfcOwnerHistory" [] [] [])))
        = ((Graph.mk [] []).mergeRel
            ⟨⟨[], [], none, none⟩, "OwnerHistory",
             (create_pure_node_from_ifc_entity
                (IfcEntity.mk 2 "IfcOwnerHistory" [] [] [])
                (IfcFile.mk []
                  (fun _ => IfcEntity.mk 2 "IfcOwnerHistory" [] [] []) [])
                true 0).1⟩,
           (create_pure_node_from_ifc_entity
              (IfcEntity.mk 2 "IfcOwnerHistory" [] [] [])
              (IfcFile.mk []
                (fun _ => IfcEntity.mk 2 "IfcOwnerHistory" [] [] []) [])
              true 0).2)) ∧
    ((extractAttrStep
        (IfcFile.mk []
          (fun _ => IfcEntity.mk 2 "IfcOwnerHistory" [] [] []) [])
        ⟨[], [], none, none⟩ (IfcEntity.mk 1 "IfcProject" [] [] [])
        (⟨[], []⟩, 0)
        (IfcAttr.mk "OwnerHistory" "ENTITY INSTANCE"
          (AttrVal.entity
            (IfcEntity.mk 2 "IfcOwnerHistory" [] [] [])))).1).nodes
      = (Graph.mk [] []).nodes :=
  C2_ownerhistory_skip_rule
    (IfcFile.mk [] (fun _ => IfcEntity.mk 2 "IfcOwnerHistory" [] [] []) [])
    ⟨[], [], none, none⟩ (IfcEntity.mk 1 "IfcProject" [] [] [])
    (⟨[], []⟩, 0)
    (IfcAttr.mk "OwnerHistory" "ENTITY INSTANCE"
      (AttrVal.entity (IfcEntity.mk 2 "IfcOwnerHistory" [] [] [])))
    (IfcEntity.mk 2 "IfcOwnerHistory" [] [] [])
    rfl rfl rfl

theorem emit_length (g : Graph) :
    (write_graph_to_neo4j g).length
      = g.nodes.length + g.relationships.length := by
  simp [write_graph_to_neo4j]

theorem emit_getElem_left (g : Graph) (i : Nat) (h : i < g.nodes.length)
    (hL : i < (write_graph_to_neo4j g).length) :
    (write_graph_to_neo4j g)[i]
      = Stmt.createNode (nGet (g.nodes[i]) "name") (g.nodes[i]).props := by
  show ((g.nodes.map (fun n => Stmt.createNode (nGet n "name") n.props))
      ++ g.relationships.map
          (fun r => Stmt.createRel (nGet r.start_node "name")
            (nGet r.start_node "id") (nGet r.end_node "name")
            (nGet r.end_node "id") r.rel_type))[i] = _
  rw [List.getElem_append_left (by simpa using h)]
  rw [List.getElem_map]

theorem emit_getElem_right (g : Graph) (j : Nat)
    (h1 : g.nodes.length ≤ j)
    (h2 : j - g.nodes.length < g.relationships.length)
    (hL : j < (write_graph_to_neo4j g).length) :
    (write_graph_to_neo4j g)[j]
      = Stmt.createRel
          (nGet ((g.relationships[j - g.nodes.length]).start_node) "name")
          (nGet ((g.relationships[j - g.nodes.length]).start_node) "id")
          (nGet ((g.relationships[j - g.nodes.length]).end_node) "name")
          (nGet ((g.relationships[j - g.nodes.length]).end_node) "id")
          ((g.relationships[j - g.nodes.length]).rel_type) := by
  show ((g.nodes.map (fun n => Stmt.createNode (nGet n "name") n.props))
      ++ g.relationships.map
          (fun r => Stmt.createRel (nGet r.start_node "name")
            (nGet r.start_node "id") (nGet r.end_node "name")
            (nGet r.end_node "id") r.rel_type))[j] = _
  rw [List.getElem_append_right (by simpa using h1)]
  simp

/-- C3 (amended): in the statement sequence produced by
`write_graph_to_neo4j`, every node-creation statement precedes every
relationship statement; and, provided every relationship endpoint identity
in the graph is carried by some accumulated node (a closure property the
extractor does not itself guarantee, since referenced nodes are not
inserted — see the theorems for claims C1 and C2), every identity a
relationship statement matches on has a preceding node-creation statement
carrying it. -/
theorem C3_emission_ordering (g : Graph) :
    (∀ i j (hi : i < (write_graph_to_neo4j g).length)
        (hj : j < (write_graph_to_neo4j g).length),
      ((write_graph_to_neo4j g)[i]).isCreateNode = true →
      ((write_graph_to_neo4j g)[j]).isCreateRel = true → i < j) ∧
    ((∀ r ∈ g.relationships,
        (∃ n ∈ g.nodes,
          dictGet n.props "id" = some (nGet r.start_node "id")) ∧
        (∃ n ∈ g.nodes,
          dictGet n.props "id" = some (nGet r.end_node "id"))) →
      ∀ j (hj : j < (write_graph_to_neo4j g).length),
        ∀ v ∈ stmtMatchedIds ((write_graph_to_neo4j g)[j]),
          ∃ i, ∃ hi : i < (write_graph_to_neo4j g).length,
            i < j ∧ stmtCarries ((write_graph_to_neo4j g)[i]) v = true) := by
  have hlen := emit_length g
  constructor
  · intro i j hi hj hni hrj
    by_cases hiA : i < g.nodes.length
    · by_cases hjA : j < g.nodes.length
      · rw [emit_getElem_left g j hjA hj] at hrj
        simp [Stmt.isCreateRel] at hrj
      · omega
    · have hge : g.nodes.length ≤ i := by omega
      have hlt : i - g.nodes.length < g.relationships.length := by omega
      rw [emit_getElem_right g i hge hlt hi] at hni
      simp [Stmt.isCreateNode] at hni
  · intro hclosed j hj v hv
    by_cases hjA : j < g.nodes.length
    · rw [emit_getElem_left g j hjA hj] at hv
      simp [stmtMatchedIds] at hv
    · have hge : g.nodes.length ≤ j := by omega
      have hlt : j - g.nodes.length < g.relationships.length := by omega
      rw [emit_getElem_right g j hge hlt hj] at hv
      simp only [stmtMatchedIds, List.mem_cons, List.not_mem_nil,
        or_false] at hv
      have hrmem : g.relationships[j - g.nodes.length] ∈ g.relationships :=
        List.getElem_mem hlt
      obtain ⟨hstart, hend⟩ := hclosed _ hrmem
      rcases hv with hv | hv
      · obtain ⟨n, hn, hid⟩ := hstart
        obtain ⟨i0, hi0, hni0⟩ := List.mem_iff_getElem.mp hn
        refine ⟨i0, by omega, by omega, ?_⟩
        rw [emit_getElem_left g i0 hi0 (by omega)]
        simp [stmtCarries, hni0, hid, hv]
      · obtain ⟨n, hn, hid⟩ := hend
        obtain ⟨i0, hi0, hni0⟩ := List.mem_iff_getElem.mp hn
        refine ⟨i0, by omega, by omega, ?_⟩
        rw [emit_getElem_left g i0 hi0 (by omega)]
        simp [stmtCarries, hni0, hid, hv]

/-- Witness for the amended C3 at a concrete one-node, one-relationship
graph satisfying the endpoint-closure hypothesis: the node statement at
index 0 precedes the relationship statement at index 1, and the matched
identity "1" has a preceding carrying statement. -/
theorem C3_emission_ordering_witness :
    (0 : Nat) < 1 ∧
    (∃ i, ∃ hi : i < (write_graph_to_neo4j
        (Graph.mk
          [⟨[("id", PVal.str "1"), ("name", PVal.str "W")], [], none,
            some (PVal.str "1")⟩]
          [⟨⟨[("id", PVal.str "1"), ("name", PVal.str "W")], [], none,
             some (PVal.str "1")⟩, "R",
            ⟨[("id", PVal.str "1"), ("name", PVal.str "W")], [], none,
             some (PVal.str "1")⟩⟩])).length,
      i < 1 ∧ stmtCarries ((write_graph_to_neo4j
        (Graph.mk
          [⟨[("id", PVal.str "1"), ("name", PVal.str "W")], [], none,
            some (PVal.str "1")⟩]
          [⟨⟨[("id", PVal.str "1"), ("name", PVal.str "W")], [], none,
             some (PVal.str "1")⟩, "R",
            ⟨[("id", PVal.str "1"), ("name", PVal.str "W")], [], none,
             some (PVal.str "1")⟩⟩]))[i]) (PVal.str "1") = true) := by
  refine ⟨?_, ?_⟩
  · exact (C3_emission_ordering
      (Graph.mk
        [⟨[("id", PVal.str "1"), ("name", PVal.str "W")], [], none,
          some (PVal.str "1")⟩]
        [⟨⟨[("id", PVal.str "1"), ("name", PVal.str "W")], [], none,
           some (PVal.str "1")⟩, "R",
          ⟨[("id", PVal.str "1"), ("name", PVal.str "W")], [], none,
           some (PVal.str "1")⟩⟩])).1 0 1 (by decide) (by decide)
      (by decide) (by decide)
  · exact (C3_emission_ordering
      (Graph.mk
        [⟨[("id", PVal.str "1"), ("name", PVal.str "W")], [], none,
          some (PVal.str "1")⟩]
        [⟨⟨[("id", PVal.str "1"), ("name", PVal.str "W")], [], none,
           some (PVal.str "1")⟩, "R",
          ⟨[("id", PVal.str "1"), ("name", PVal.str "W")], [], none,
           some (PVal.str "1")⟩⟩])).2 (by decide) 1 (by decide)
      (PVal.str "1") (by decide)

/-- C3 counterexample: the claim as stated fails even for a graph built by
the full pipeline — a model whose single enumerated entity (an "IfcWall",
id 1) references an inline entity with native identifier 0 yields an
emitted sequence whose relationship statement matches on the referenced
node's synthetic identity, yet no statement in the sequence (in particular
no preceding node-creation statement) carries that identity, because the
referenced node was never inserted into the node set. -/
theorem C3_counterexample :
    ((write_graph_to_neo4j (create_full_graph ⟨[], []⟩
        (IfcFile.mk []
          (fun _ => IfcEntity.mk 1 "IfcWall" []
            [IfcAttr.mk "Ref" "ENTITY INSTANCE"
              (AttrVal.entity (IfcEntity.mk 0 "IfcLabel" [] [] []))] [])
          [1]) 0).1)[1]?
      = some (Stmt.createRel (PVal.str "IfcWall") (PVal.str "1")
          (PVal.str "IfcLabel") (PVal.str (uuidString 0)) "Ref")) ∧
    ((write_graph_to_neo4j (create_full_graph ⟨[], []⟩
        (IfcFile.mk []
          (fun _ => IfcEntity.mk 1 "IfcWall" []
            [IfcAttr.mk "Ref" "ENTITY INSTANCE"
              (AttrVal.entity (IfcEntity.mk 0 "IfcLabel" [] [] []))] [])
          [1]) 0).1).all
        (fun s => !(stmtCarries s (PVal.str (uuidString 0)))) = true) := by
  decide

end IfcGraph
